import Mathlib

/-!
Shallow embedding of the register subsystem of the `rd` record-and-replay
debugger (file `src/registers.rs`): the per-architecture register catalogue
and its descriptor smart constructors, the masked register-file comparator,
the catalogue-driven register write, the trace serializer, the 32-to-64-bit
width converter, and the typed accessors.  Machine integers are modelled as
`Nat` bit patterns (below `2^32` for 32-bit fields, below `2^64` for 64-bit
fields) with explicit `% 2^w` and explicit signed reinterpretation where the
source casts between signed and unsigned types; register-file storage for
the offset-driven operations is modelled as a byte store `Nat → Nat`.
-/

/-- `2^64`, the modulus of the source's `u64` values. -/
def U64 : Nat := 2 ^ 64

/-- `2^32`, the modulus of the source's `u32`/`i32` values. -/
def U32 : Nat := 2 ^ 32

/-- Reinterpret a 32-bit pattern as a signed value (`i32` view). -/
def toSigned32 (v : Nat) : Int :=
  if v < 2 ^ 31 then (v : Int) else (v : Int) - (2 ^ 32 : Int)

/-- Reinterpret a 64-bit pattern as a signed value (`i64`/`isize` view). -/
def toSigned64 (v : Nat) : Int :=
  if v < 2 ^ 63 then (v : Int) else (v : Int) - (2 ^ 64 : Int)

/-- Bitwise complement on 64-bit patterns: `!v` on a `u64` (for `v < 2^64`). -/
def not64 (v : Nat) : Nat := (U64 - 1) - v % U64

/-- Sign-extension of a 32-bit pattern to a 64-bit pattern: the bit pattern of
`(v as i32) as i64 as u64` (also the pattern of `(v as i32) as usize` on a
64-bit host, which is how the `rd_get_reg!` macro widens x86 fields). -/
def i32_as_usize (v : Nat) : Nat :=
  if v < 2 ^ 31 then v else v + (U64 - U32)

/-- Register descriptor: one catalogue entry (source `struct RegisterValue`). -/
structure RegisterValue where
  name : String
  offset : Nat
  nbytes : Nat
  comparison_mask : Nat
  deriving Repr, DecidableEq

/-- Source `RegisterValue::mask_for_nbytes`: all-ones mask of width
`nbytes * 8`, computed with wrapping arithmetic exactly as in the source. -/
def RegisterValue.mask_for_nbytes (nbytes : Nat) : Nat :=
  if nbytes = 8 then U64 - 1
  else ((U64 - 1) + 2 ^ (nbytes * 8)) % U64

/-- Source `RegisterValue::new`: default comparison mask is the full width. -/
def RegisterValue.new (name : String) (offset nbytes : Nat) : RegisterValue :=
  { name := name, offset := offset, nbytes := nbytes,
    comparison_mask := RegisterValue.mask_for_nbytes nbytes }

/-- Source `RegisterValue::new_with_mask` (the constructor body, after its
`debug_assert!`). -/
def RegisterValue.new_with_mask (name : String) (offset nbytes comparison_mask : Nat) :
    RegisterValue :=
  { name := name, offset := offset, nbytes := nbytes,
    comparison_mask := comparison_mask }

/-- The `debug_assert!` guard of `RegisterValue::new_with_mask` /
`new_with_mask_with_size_override`: no mask bit outside the register's
bit-width. -/
def RegisterValue.mask_ok (nbytes comparison_mask : Nat) : Bool :=
  comparison_mask &&& not64 (RegisterValue.mask_for_nbytes nbytes) == 0

/-- Source `RegisterValue::new_with_mask` together with its construction-time
assertion: `none` exactly when the `debug_assert!` fires. -/
def RegisterValue.new_with_mask_checked (name : String)
    (offset nbytes comparison_mask : Nat) : Option RegisterValue :=
  if RegisterValue.mask_ok nbytes comparison_mask then
    some (RegisterValue.new_with_mask name offset nbytes comparison_mask)
  else none

/-- Source `RegisterValue::new_with_mask_with_size_override`: the assertion is
checked against the field's own size, then the size override (when positive)
replaces `nbytes`. -/
def RegisterValue.new_with_mask_with_size_override (name : String)
    (offset nbytes comparison_mask size_override : Nat) : RegisterValue :=
  { name := name, offset := offset,
    nbytes := if size_override > 0 then size_override else nbytes,
    comparison_mask := comparison_mask }

/-- Checked variant of `new_with_mask_with_size_override`: `none` exactly when
its `debug_assert!` (against the pre-override `nbytes`) fires. -/
def RegisterValue.new_with_mask_with_size_override_checked (name : String)
    (offset nbytes comparison_mask size_override : Nat) : Option RegisterValue :=
  if RegisterValue.mask_ok nbytes comparison_mask then
    some (RegisterValue.new_with_mask_with_size_override name offset nbytes
      comparison_mask size_override)
  else none

/-- Source `SupportedArch`. -/
inductive SupportedArch where
  | X86
  | X64
  deriving Repr, DecidableEq

/-- Modelled from the spec: the byte layout of the Linux `user_regs_struct`
for 32-bit x86 (module `crate::kernel_abi::x86`, not part of the inspected
source).  Every field is an `i32` — fixed by the converter signatures
`Fn(&mut i32, u64)` in `src/registers.rs` — so each field is 4 bytes and the
field offsets are `ebx 0, ecx 4, edx 8, esi 12, edi 16, ebp 20, eax 24,
xds 28, xes 32, xfs 36, xgs 40, orig_eax 44, eip 48, xcs 52, eflags 56,
esp 60, xss 64` per the platform tracing ABI the spec designates as the
externally imposed native layout. -/
def x86_offset_orig_eax : Nat := 44

/-- Modelled from the spec: offset of `orig_rax` in the 64-bit
`user_regs_struct` (module `crate::kernel_abi::x64`, not part of the inspected
source).  Every field is a `u64` (8 bytes), offsets `r15 0, r14 8, r13 16,
r12 24, rbp 32, rbx 40, r11 48, r10 56, r9 64, r8 72, rax 80, rcx 88, rdx 96,
rsi 104, rdi 112, orig_rax 120, rip 128, cs 136, eflags 144, rsp 152, ss 160,
fs_base 168, gs_base 176, ds 184, es 192, fs 200, gs 208`. -/
def x64_offset_orig_rax : Nat := 120

/-- Source `x86regs()`: the 32-bit catalogue, in the order of the source's
construction array.  Keys are the remote-protocol register numbers
(modelled from the spec's "small stable integers" — the GDB numbering; only
their distinctness matters here).  Sizes come from the `i32` field type,
offsets from the modelled layout, masks are literal in the source. -/
def x86regs : List (Nat × RegisterValue) :=
  [ (0, RegisterValue.new "eax" 24 4),
    (1, RegisterValue.new "ecx" 4 4),
    (2, RegisterValue.new "edx" 8 4),
    (3, RegisterValue.new "ebx" 0 4),
    (4, RegisterValue.new "esp" 60 4),
    (5, RegisterValue.new "ebp" 20 4),
    (6, RegisterValue.new "esi" 12 4),
    (7, RegisterValue.new "edi" 16 4),
    (8, RegisterValue.new "eip" 48 4),
    (9, RegisterValue.new_with_mask "eflags" 56 4 0),
    (10, RegisterValue.new_with_mask "xcs" 52 4 0),
    (11, RegisterValue.new_with_mask "xss" 64 4 0),
    (12, RegisterValue.new_with_mask "xds" 28 4 0),
    (13, RegisterValue.new_with_mask "xes" 32 4 0),
    (14, RegisterValue.new_with_mask "xfs" 36 4 0xfffc),
    (15, RegisterValue.new_with_mask "xgs" 40 4 0xfffc),
    (41, RegisterValue.new_with_mask "orig_eax" 44 4 0) ]

/-- Source `x64regs()`: the 64-bit catalogue, in the order of the source's
construction array (sizes: `u64` fields are 8 bytes, with the source's
explicit size overrides; masks literal in the source). -/
def x64regs : List (Nat × RegisterValue) :=
  [ (0, RegisterValue.new "rax" 80 8),
    (2, RegisterValue.new "rcx" 88 8),
    (3, RegisterValue.new "rdx" 96 8),
    (1, RegisterValue.new "rbx" 40 8),
    (7, RegisterValue.new_with_mask_with_size_override "rsp" 152 8 0 8),
    (6, RegisterValue.new "rbp" 32 8),
    (4, RegisterValue.new "rsi" 104 8),
    (5, RegisterValue.new "rdi" 112 8),
    (8, RegisterValue.new "r8" 72 8),
    (9, RegisterValue.new "r9" 64 8),
    (10, RegisterValue.new "r10" 56 8),
    (11, RegisterValue.new "r11" 48 8),
    (12, RegisterValue.new "r12" 24 8),
    (13, RegisterValue.new "r13" 16 8),
    (14, RegisterValue.new "r14" 8 8),
    (15, RegisterValue.new "r15" 0 8),
    (16, RegisterValue.new "rip" 128 8),
    (17, RegisterValue.new_with_mask_with_size_override "eflags" 144 8 0 4),
    (18, RegisterValue.new_with_mask_with_size_override "cs" 136 8 0 4),
    (19, RegisterValue.new_with_mask_with_size_override "ss" 160 8 0 4),
    (20, RegisterValue.new_with_mask_with_size_override "ds" 184 8 0 4),
    (21, RegisterValue.new_with_mask_with_size_override "es" 192 8 0 4),
    (22, RegisterValue.new_with_mask_with_size_override "fs" 200 8 0xffffffff 4),
    (23, RegisterValue.new_with_mask_with_size_override "gs" 208 8 0xffffffff 4),
    (57, RegisterValue.new_with_mask_with_size_override "orig_rax" 120 8 0 8),
    (58, RegisterValue.new "fs_base" 168 8),
    (59, RegisterValue.new "gs_base" 176 8) ]

/-- Source `Architecture::get_regs_info`, dispatching on the architecture. -/
def get_regs_info (arch : SupportedArch) : List (Nat × RegisterValue) :=
  match arch with
  | .X86 => x86regs
  | .X64 => x64regs

/-- The 32-bit catalogue rebuilt entirely through the assertion-checked
constructors; `some x86regs` exactly when no construction-time
`debug_assert!` fires. -/
def x86regsChecked : Option (List (Nat × RegisterValue)) := do
  let eflags ← RegisterValue.new_with_mask_checked "eflags" 56 4 0
  let xcs ← RegisterValue.new_with_mask_checked "xcs" 52 4 0
  let xss ← RegisterValue.new_with_mask_checked "xss" 64 4 0
  let xds ← RegisterValue.new_with_mask_checked "xds" 28 4 0
  let xes ← RegisterValue.new_with_mask_checked "xes" 32 4 0
  let xfs ← RegisterValue.new_with_mask_checked "xfs" 36 4 0xfffc
  let xgs ← RegisterValue.new_with_mask_checked "xgs" 40 4 0xfffc
  let orig ← RegisterValue.new_with_mask_checked "orig_eax" 44 4 0
  pure [ (0, RegisterValue.new "eax" 24 4),
    (1, RegisterValue.new "ecx" 4 4),
    (2, RegisterValue.new "edx" 8 4),
    (3, RegisterValue.new "ebx" 0 4),
    (4, RegisterValue.new "esp" 60 4),
    (5, RegisterValue.new "ebp" 20 4),
    (6, RegisterValue.new "esi" 12 4),
    (7, RegisterValue.new "edi" 16 4),
    (8, RegisterValue.new "eip" 48 4),
    (9, eflags), (10, xcs), (11, xss), (12, xds), (13, xes),
    (14, xfs), (15, xgs), (41, orig) ]

/-- The 64-bit catalogue rebuilt through the assertion-checked constructors. -/
def x64regsChecked : Option (List (Nat × RegisterValue)) := do
  let rsp ← RegisterValue.new_with_mask_with_size_override_checked "rsp" 152 8 0 8
  let eflags ← RegisterValue.new_with_mask_with_size_override_checked "eflags" 144 8 0 4
  let cs ← RegisterValue.new_with_mask_with_size_override_checked "cs" 136 8 0 4
  let ss ← RegisterValue.new_with_mask_with_size_override_checked "ss" 160 8 0 4
  let ds ← RegisterValue.new_with_mask_with_size_override_checked "ds" 184 8 0 4
  let es ← RegisterValue.new_with_mask_with_size_override_checked "es" 192 8 0 4
  let fs ← RegisterValue.new_with_mask_with_size_override_checked "fs" 200 8 0xffffffff 4
  let gs ← RegisterValue.new_with_mask_with_size_override_checked "gs" 208 8 0xffffffff 4
  let orig ← RegisterValue.new_with_mask_with_size_override_checked "orig_rax" 120 8 0 8
  pure [ (0, RegisterValue.new "rax" 80 8),
    (2, RegisterValue.new "rcx" 88 8),
    (3, RegisterValue.new "rdx" 96 8),
    (1, RegisterValue.new "rbx" 40 8),
    (7, rsp),
    (6, RegisterValue.new "rbp" 32 8),
    (4, RegisterValue.new "rsi" 104 8),
    (5, RegisterValue.new "rdi" 112 8),
    (8, RegisterValue.new "r8" 72 8),
    (9, RegisterValue.new "r9" 64 8),
    (10, RegisterValue.new "r10" 56 8),
    (11, RegisterValue.new "r11" 48 8),
    (12, RegisterValue.new "r12" 24 8),
    (13, RegisterValue.new "r13" 16 8),
    (14, RegisterValue.new "r14" 8 8),
    (15, RegisterValue.new "r15" 0 8),
    (16, RegisterValue.new "rip" 128 8),
    (17, eflags), (18, cs), (19, ss), (20, ds), (21, es),
    (22, fs), (23, gs), (57, orig),
    (58, RegisterValue.new "fs_base" 168 8),
    (59, RegisterValue.new "gs_base" 176 8) ]

/-- Byte storage of a `RegistersUnion`: the byte at each offset. -/
def Store : Type := Nat → Nat

/-- Little-endian read of `n` bytes at `offset` (the
`std::ptr::copy_nonoverlapping` into a `u32`/`u64` in the source). -/
def read_le (s : Store) (offset : Nat) : Nat → Nat
  | 0 => 0
  | n + 1 => s offset % 256 + 256 * read_le s (offset + 1) n

/-- 4-byte read, as through `RegisterValue::u32_pointer_into`. -/
def read32 (s : Store) (offset : Nat) : Nat := read_le s offset 4

/-- 8-byte read, as through `RegisterValue::u64_pointer_into`. -/
def read64 (s : Store) (offset : Nat) : Nat := read_le s offset 8

/-- The `u64` value the comparator's walk extracts for a descriptor: a
4-byte read zero-extended, an 8-byte read, or (after the `debug_assert!`
on a bad register size) the untouched initialization `0`. -/
def reg_val (s : Store) (rv : RegisterValue) : Nat :=
  match rv.nbytes with
  | 4 => read32 s rv.offset
  | 8 => read64 s rv.offset
  | _ => 0

/-- One iteration of the comparator's generic walk
(`for (_, rv) in regs_info.iter()` in `compare_registers_arch`): the
accumulator carries the names passed to `maybe_log_reg_mismatch` so far and
the running `match_` flag. -/
def compare_walk_step (s1 s2 : Store) (acc : List String × Bool)
    (p : Nat × RegisterValue) : List String × Bool :=
  let rv := p.2
  if rv.nbytes = 0 then acc
  else if rv.comparison_mask = 0 then acc
  else if reg_val s1 rv &&& rv.comparison_mask ≠ reg_val s2 rv &&& rv.comparison_mask then
    (acc.1 ++ [rv.name], false)
  else acc

/-- The special-cased original-syscall-number check that
`compare_registers_arch` performs before the generic walk, returning the
names reported so far and the `match_` flag it leaves behind.  On x86 the
condition is `orig_eax_1 >= 0 && orig_eax_2 > 0` (as `i32`), on x64
`orig_rax_1 >= 0 && orig_rax_2 > 0` (as `i64`). -/
def compare_orig_check (arch : SupportedArch) (s1 s2 : Store) : List String × Bool :=
  match arch with
  | .X86 =>
    let o1 := read32 s1 x86_offset_orig_eax
    let o2 := read32 s2 x86_offset_orig_eax
    if 0 ≤ toSigned32 o1 ∧ 0 < toSigned32 o2 then
      if o1 ≠ o2 then (["orig_eax"], false) else ([], true)
    else ([], true)
  | .X64 =>
    let o1 := read64 s1 x64_offset_orig_rax
    let o2 := read64 s2 x64_offset_orig_rax
    if 0 ≤ toSigned64 o1 ∧ 0 < toSigned64 o2 then
      if o1 ≠ o2 then (["orig_rax"], false) else ([], true)
    else ([], true)

/-- Source `Registers::compare_registers_arch`, for two same-architecture
register files: first the special original-syscall check, then the walk over
every catalogue descriptor.  Result: the register names reported through
`maybe_log_reg_mismatch` (in order) and the returned `match_` flag. -/
def compare_registers_arch (arch : SupportedArch) (s1 s2 : Store) :
    List String × Bool :=
  (get_regs_info arch).foldl (compare_walk_step s1 s2) (compare_orig_check arch s1 s2)

/-- The walk's mismatch condition for one descriptor, as a predicate:
nonzero size, nonzero mask, and the masked extracted values differ. -/
def mism (s1 s2 : Store) (p : Nat × RegisterValue) : Bool :=
  ¬ p.2.nbytes = 0 ∧ ¬ p.2.comparison_mask = 0 ∧
    reg_val s1 p.2 &&& p.2.comparison_mask ≠ reg_val s2 p.2 &&& p.2.comparison_mask

/-- First register file of the C1 counterexample: all bytes zero except the
original-syscall field, which holds `5`. -/
def c1_store1 : Store := fun i => if i = 44 then 5 else 0

/-- Second register file of the C1 counterexample: all bytes zero, so the
original-syscall field holds `0`. -/
def c1_store2 : Store := fun _ => 0

/-- Source `std::ptr::copy_nonoverlapping(value.as_ptr(), dest, value.len())`
in `write_register_arch`: byte-by-byte copy of the whole caller slice into
storage starting at `offset`. -/
def write_bytes (s : Store) (offset : Nat) : List Nat → Store
  | [] => s
  | b :: rest => write_bytes (fun i => if i = offset then b else s i) (offset + 1) rest

/-- Source `Registers::write_register_arch`: look the register up by its
remote-protocol number; a missing or size-0 descriptor drops the write
(after an optional diagnostic), otherwise the value slice's bytes are
copied to the descriptor's offset. -/
def write_register_arch (arch : SupportedArch) (s : Store) (value : List Nat)
    (regno : Nat) : Store :=
  match (get_regs_info arch).find? (fun p => p.1 == regno) with
  | none => s
  | some p => if p.2.nbytes = 0 then s else write_bytes s p.2.offset value

/-- Lowercase hexadecimal rendering, the `write!(f, "{:x}", v)` of the
source. -/
def toHex (n : Nat) : String := String.mk (Nat.toDigits 16 n)

/-- Source `TraceStyle`. -/
inductive TraceStyle where
  | Annotated
  | Raw
  deriving Repr, DecidableEq

/-- Source `Registers::write_single_register`: a `name:` prefix when a name
is given, a single space otherwise, then the register's bytes in hex. -/
def write_single_register (name : String) (nbytes : Nat) (s : Store)
    (offset : Nat) : String :=
  (if name.length > 0 then name ++ ":" else " ") ++
    match nbytes with
    | 4 => toHex (read32 s offset)
    | 8 => toHex (read64 s offset)
    | _ => ""

/-- One iteration of `write_register_file_for_trace_arch`'s loop: the
accumulator is the text written so far and the `first` flag. -/
def trace_step (s : Store) (style : TraceStyle) (acc : String × Bool)
    (p : Nat × RegisterValue) : String × Bool :=
  if p.2.nbytes = 0 then acc
  else
    let sep := if acc.2 then "" else " "
    let nm := match style with
      | TraceStyle.Annotated => p.2.name
      | _ => ""
    let piece := match p.2.nbytes with
      | 4 => write_single_register nm p.2.nbytes s p.2.offset
      | 8 => write_single_register nm p.2.nbytes s p.2.offset
      | _ => ""
    (acc.1 ++ (sep ++ piece), false)

/-- Source `Registers::write_register_file_for_trace_arch`: the text it
writes to the stream. -/
def write_register_file_for_trace_arch (arch : SupportedArch) (s : Store)
    (style : TraceStyle) : String :=
  ((get_regs_info arch).foldl (trace_step s style) ("", true)).1

/-- Source `Registers::write_register_file_compact`: it invokes the trace
renderer with `TraceStyle::Annotated`. -/
def write_register_file_compact (arch : SupportedArch) (s : Store) : String :=
  write_register_file_for_trace_arch arch s TraceStyle.Annotated

/-- `" " ++ x1 ++ " " ++ x2 ++ …` -/
def joinSpaceTail : List String → String
  | [] => ""
  | y :: rest => " " ++ y ++ joinSpaceTail rest

/-- `x0 ++ " " ++ x1 ++ …`: space-separated concatenation. -/
def joinSpace : List String → String
  | [] => ""
  | x :: rest => x ++ joinSpaceTail rest

/-- The `name:hexvalue` chunk the annotated renderer emits for one nonzero
descriptor. -/
def annotated_piece (s : Store) (p : Nat × RegisterValue) : String :=
  p.2.name ++ ":" ++ toHex (reg_val s p.2)

/-- The chunks the annotated renderer emits: one per nonzero-size catalogue
entry, in catalogue order. -/
def trace_pieces (s : Store) (l : List (Nat × RegisterValue)) : List String :=
  (l.filter (fun p => ¬ p.2.nbytes = 0)).map (annotated_piece s)

/-- Modelled from the spec: the compact/positional serialization the spec
describes — one hexadecimal value per nonzero-size catalogue entry, in
catalogue order, space-separated, with no register-name annotation. -/
def compact_positional_spec (arch : SupportedArch) (s : Store) : String :=
  joinSpace (((get_regs_info arch).filter (fun p => ¬ p.2.nbytes = 0)).map
    (fun p => toHex (reg_val s p.2)))

/-- The all-zero register file used by the serializer counterexample. -/
def zero_store : Store := fun _ => 0

/-- Modelled from the spec: the 32-bit `x86::user_regs_struct` as a record of
`i32` bit patterns (`crate::kernel_abi::x86` is not part of the inspected
source; the field list and the `i32` field type are fixed by the converter
signatures `Fn(&mut i32, u64)` and the field accesses in
`src/registers.rs`). -/
structure X86UserRegs where
  ebx : Nat
  ecx : Nat
  edx : Nat
  esi : Nat
  edi : Nat
  ebp : Nat
  eax : Nat
  xds : Nat
  xes : Nat
  xfs : Nat
  xgs : Nat
  orig_eax : Nat
  eip : Nat
  xcs : Nat
  eflags : Nat
  esp : Nat
  xss : Nat
  deriving Repr, DecidableEq

/-- Modelled from the spec: the 64-bit `x64::user_regs_struct` as a record of
`u64` bit patterns (field list fixed by the converter and the field accesses
in `src/registers.rs`). -/
structure X64UserRegs where
  r15 : Nat
  r14 : Nat
  r13 : Nat
  r12 : Nat
  rbp : Nat
  rbx : Nat
  r11 : Nat
  r10 : Nat
  r9 : Nat
  r8 : Nat
  rax : Nat
  rcx : Nat
  rdx : Nat
  rsi : Nat
  rdi : Nat
  orig_rax : Nat
  rip : Nat
  cs : Nat
  eflags : Nat
  rsp : Nat
  ss : Nat
  fs_base : Nat
  gs_base : Nat
  ds : Nat
  es : Nat
  fs : Nat
  gs : Nat
  deriving Repr, DecidableEq

/-- `x64::user_regs_struct::default()`: all fields zero. -/
def X64UserRegs.default : X64UserRegs :=
  ⟨0, 0, 0, 0, 0, 0, 0, 0, 0, 0, 0, 0, 0, 0, 0, 0, 0, 0, 0, 0, 0, 0, 0, 0, 0, 0, 0⟩

/-- Well-formedness of the model: every stored `i32` bit pattern fits in 32
bits (automatic from the types in the source). -/
abbrev X86UserRegs.wf (x : X86UserRegs) : Prop :=
  x.ebx < U32 ∧ x.ecx < U32 ∧ x.edx < U32 ∧ x.esi < U32 ∧ x.edi < U32 ∧
  x.ebp < U32 ∧ x.eax < U32 ∧ x.xds < U32 ∧ x.xes < U32 ∧ x.xfs < U32 ∧
  x.xgs < U32 ∧ x.orig_eax < U32 ∧ x.eip < U32 ∧ x.xcs < U32 ∧
  x.eflags < U32 ∧ x.esp < U32 ∧ x.xss < U32

/-- Source `to_x86_narrow`: `*r32 = r64 as i32` — truncation to the low 32
bits of the pattern. -/
def to_x86_narrow (r64 : Nat) : Nat := r64 % U32

/-- Source `from_x86_narrow` ("No signed extension"):
`*r64 = r32 as u32 as u64` — the 32-bit pattern zero-extended. -/
def from_x86_narrow (r32 : Nat) : Nat := r32

/-- Source `from_x86_narrow_signed` ("Signed extension"):
`*r64 = r32 as i64 as u64` — the 32-bit pattern sign-extended to 64 bits. -/
def from_x86_narrow_signed (r32 : Nat) : Nat :=
  if r32 < 2 ^ 31 then r32 else r32 + (U64 - U32)

/-- Source `convert_x86_widen`: field-by-field widening of a 32-bit register
struct into a 64-bit one; only `rax` uses the `widen_signed` callback. -/
def convert_x86_widen (x64 : X64UserRegs) (x86 : X86UserRegs)
    (widen widen_signed : Nat → Nat) : X64UserRegs :=
  { x64 with
    rax := widen_signed x86.eax,
    rbx := widen x86.ebx,
    rcx := widen x86.ecx,
    rdx := widen x86.edx,
    rsi := widen x86.esi,
    rdi := widen x86.edi,
    rsp := widen x86.esp,
    rbp := widen x86.ebp,
    rip := widen x86.eip,
    orig_rax := widen x86.orig_eax,
    eflags := widen x86.eflags,
    cs := widen x86.xcs,
    ds := widen x86.xds,
    es := widen x86.xes,
    fs := widen x86.xfs,
    gs := widen x86.xgs,
    ss := widen x86.xss }

/-- Source `convert_x86_narrow`: field-by-field narrowing of a 64-bit register
struct into a 32-bit one; only `eax` uses the `narrow_signed` callback. -/
def convert_x86_narrow (x86 : X86UserRegs) (x64 : X64UserRegs)
    (narrow narrow_signed : Nat → Nat) : X86UserRegs :=
  { x86 with
    eax := narrow_signed x64.rax,
    ebx := narrow x64.rbx,
    ecx := narrow x64.rcx,
    edx := narrow x64.rdx,
    esi := narrow x64.rsi,
    edi := narrow x64.rdi,
    esp := narrow x64.rsp,
    ebp := narrow x64.rbp,
    eip := narrow x64.rip,
    orig_eax := narrow x64.orig_rax,
    eflags := narrow x64.eflags,
    xcs := narrow x64.cs,
    xds := narrow x64.ds,
    xes := narrow x64.es,
    xfs := narrow x64.fs,
    xgs := narrow x64.gs,
    xss := narrow x64.ss }

/-- Source `Registers`: the architecture tag selecting which native struct
the union storage holds. -/
inductive Registers where
  | x86 (r : X86UserRegs)
  | x64 (r : X64UserRegs)
  deriving Repr, DecidableEq

/-- Source `Registers::get_ptrace` on a 64-bit build (`RD_NATIVE_ARCH` is
X64): a native-arch file returns its own x64 struct; an x86-arch file is
widened into a zeroed x64 struct via `convert_x86_widen` with
`from_x86_narrow` / `from_x86_narrow_signed`. -/
def get_ptrace : Registers → X64UserRegs
  | .x64 r => r
  | .x86 r => convert_x86_widen X64UserRegs.default r from_x86_narrow from_x86_narrow_signed

/-- Concrete 32-bit register file for the C3 witness: accumulator with bit 31
set, every other field small. -/
def c3_sample : X86UserRegs :=
  ⟨1, 2, 3, 4, 5, 6, 2147483648, 7, 8, 9, 10, 11, 12, 13, 14, 15, 16⟩

/-- `rd_get_reg!(self, eax, rax)` (source macro): the x86 field read as
`i32 as usize` (sign-extending on a 64-bit host), the x64 field read as
`u64 as usize`. -/
def Registers.syscall_result : Registers → Nat
  | .x86 r => i32_as_usize r.eax
  | .x64 r => r.rax

/-- Source `Registers::syscall_result_signed`: the unsigned read
reinterpreted as `isize`. -/
def Registers.syscall_result_signed (r : Registers) : Int :=
  toSigned64 r.syscall_result

/-- Source `Registers::syscall_failed`:
`-4096 < syscall_result_signed() < 0`. -/
def Registers.syscall_failed (r : Registers) : Bool :=
  decide (-4096 < r.syscall_result_signed ∧ r.syscall_result_signed < 0)

/-- Source `Registers::flags` (hand-written dispatch, same shape as
`rd_get_reg!`). -/
def Registers.flags : Registers → Nat
  | .x86 r => i32_as_usize r.eflags
  | .x64 r => r.eflags

/-- Source `Registers::ip` — the `usize` wrapped into the returned
`RemoteCodePtr`. -/
def Registers.ip : Registers → Nat
  | .x86 r => i32_as_usize r.eip
  | .x64 r => r.rip

/-- Source `Registers::sp` — the `usize` wrapped into the returned
`RemotePtr`. -/
def Registers.sp : Registers → Nat
  | .x86 r => i32_as_usize r.esp
  | .x64 r => r.rsp

/-- Source `Registers::arg1`: `rd_get_reg!(self, ebx, rdi)`. -/
def Registers.arg1 : Registers → Nat
  | .x86 r => i32_as_usize r.ebx
  | .x64 r => r.rdi

/-- Source `Registers::arg2`: `rd_get_reg!(self, ecx, rsi)`. -/
def Registers.arg2 : Registers → Nat
  | .x86 r => i32_as_usize r.ecx
  | .x64 r => r.rsi

/-- Source `Registers::arg3`: `rd_get_reg!(self, edx, rdx)`. -/
def Registers.arg3 : Registers → Nat
  | .x86 r => i32_as_usize r.edx
  | .x64 r => r.rdx

/-- Source `Registers::arg4`: `rd_get_reg!(self, esi, r10)`. -/
def Registers.arg4 : Registers → Nat
  | .x86 r => i32_as_usize r.esi
  | .x64 r => r.r10

/-- Source `Registers::arg5`: `rd_get_reg!(self, edi, r8)`. -/
def Registers.arg5 : Registers → Nat
  | .x86 r => i32_as_usize r.edi
  | .x64 r => r.r8

/-- Source `Registers::arg6`: `rd_get_reg!(self, ebp, r9)`. -/
def Registers.arg6 : Registers → Nat
  | .x86 r => i32_as_usize r.ebp
  | .x64 r => r.r9

/-- An x86 register file whose accumulator holds the given pattern and whose
other fields are zero. -/
def x86_with_eax (v : Nat) : X86UserRegs :=
  ⟨0, 0, 0, 0, 0, 0, v, 0, 0, 0, 0, 0, 0, 0, 0, 0, 0⟩

/-- An x64 register file whose accumulator holds the given pattern and whose
other fields are zero. -/
def x64_with_rax (v : Nat) : X64UserRegs :=
  { X64UserRegs.default with rax := v }

/-- Concrete x86 register file for the C10 witness: every field has bit 31
set. -/
def c10_sample : X86UserRegs :=
  ⟨2147483648, 2147483648, 2147483648, 2147483648, 2147483648, 2147483648,
   2147483648, 2147483648, 2147483648, 2147483648, 2147483648, 2147483648,
   2147483648, 2147483648, 2147483648, 2147483648, 2147483648⟩

lemma compare_walk_step_eq (s1 s2 : Store) (acc : List String × Bool)
    (p : Nat × RegisterValue) :
    compare_walk_step s1 s2 acc p =
      if mism s1 s2 p then (acc.1 ++ [p.2.name], false) else acc := by
  unfold compare_walk_step mism
  rcases h0 : decide (¬ p.2.nbytes = 0) with _ | _ <;>
    rcases h1 : decide (¬ p.2.comparison_mask = 0) with _ | _ <;>
    simp_all

lemma compare_walk_foldl (s1 s2 : Store) (l : List (Nat × RegisterValue)) :
    ∀ (r : List String) (b : Bool),
      l.foldl (compare_walk_step s1 s2) (r, b) =
        (r ++ (l.filter (mism s1 s2)).map (fun p => p.2.name),
          b && (l.filter (mism s1 s2)).isEmpty) := by
  induction l with
  | nil => intro r b; simp
  | cons p l ih =>
    intro r b
    rw [List.foldl_cons, compare_walk_step_eq]
    cases hm : mism s1 s2 p <;> simp [hm, ih, List.filter_cons]

lemma compare_orig_check_match (arch : SupportedArch) (s1 s2 : Store) :
    (compare_orig_check arch s1 s2).2 = (compare_orig_check arch s1 s2).1.isEmpty := by
  cases arch
  all_goals
    unfold compare_orig_check
    dsimp only
    split
    case isTrue => split <;> rfl
    case isFalse => rfl

lemma compare_registers_arch_eq (arch : SupportedArch) (s1 s2 : Store) :
    compare_registers_arch arch s1 s2 =
      ((compare_orig_check arch s1 s2).1 ++
        ((get_regs_info arch).filter (mism s1 s2)).map (fun p => p.2.name),
       (compare_orig_check arch s1 s2).2 &&
        ((get_regs_info arch).filter (mism s1 s2)).isEmpty) := by
  unfold compare_registers_arch
  rw [show compare_orig_check arch s1 s2 =
    ((compare_orig_check arch s1 s2).1, (compare_orig_check arch s1 s2).2) from rfl]
  exact compare_walk_foldl s1 s2 (get_regs_info arch) _ _

lemma compare_orig_check_self (arch : SupportedArch) (s : Store) :
    compare_orig_check arch s s = ([], true) := by
  cases arch
  all_goals
    unfold compare_orig_check
    dsimp only
    split
    case isTrue => simp
    case isFalse => rfl

lemma mism_self (s : Store) (p : Nat × RegisterValue) : mism s s p = false := by
  simp [mism]

lemma compare_registers_arch_fst (arch : SupportedArch) (s1 s2 : Store) :
    (compare_registers_arch arch s1 s2).1 =
      (compare_orig_check arch s1 s2).1 ++
        ((get_regs_info arch).filter (mism s1 s2)).map (fun p => p.2.name) := by
  rw [compare_registers_arch_eq]

/-- C2: the comparator's generic walk visits every catalogue descriptor with
no early exit — the reported registers are exactly the descriptors with
nonzero size, nonzero comparison mask, and differing masked values (appended
after any special original-syscall report); the overall result is `true` iff
nothing was reported; and comparing a register file with itself reports
nothing and succeeds. -/
theorem compare_registers_arch_complete (arch : SupportedArch) (s1 s2 : Store) :
    (compare_registers_arch arch s1 s2).1 =
      (compare_orig_check arch s1 s2).1 ++
        ((get_regs_info arch).filter (mism s1 s2)).map (fun p => p.2.name) ∧
    ((compare_registers_arch arch s1 s2).2 = true ↔
      (compare_registers_arch arch s1 s2).1 = []) ∧
    compare_registers_arch arch s1 s1 = ([], true) := by
  refine ⟨?_, ?_, ?_⟩
  · rw [compare_registers_arch_eq]
  · rw [compare_registers_arch_eq, compare_orig_check_match]
    simp [List.isEmpty_iff]
  · rw [compare_registers_arch_eq, compare_orig_check_self]
    simp [List.filter_eq_nil_iff, mism_self]

lemma orig_name_not_walk_reported (s1 s2 : Store) (n : String)
    (l : List (Nat × RegisterValue))
    (hname : ∀ p ∈ l, p.2.name = n → p.2.comparison_mask = 0) :
    n ∉ (l.filter (mism s1 s2)).map (fun p => p.2.name) := by
  intro h
  rcases List.mem_map.mp h with ⟨p, hp, hn⟩
  rcases List.mem_filter.mp hp with ⟨hmem, hmism⟩
  have hmask := hname p hmem hn
  rw [mism] at hmism
  simp [hmask] at hmism

/-- C1 (amended): on both architectures, a mismatch is reported for the
original-syscall-number pseudo-register exactly when the first file's value
is non-negative, the second file's value is strictly positive, and the two
values differ; in particular whenever either value is negative nothing is
reported for it. -/
theorem compare_orig_reported_iff (s1 s2 : Store) :
    ("orig_eax" ∈ (compare_registers_arch .X86 s1 s2).1 ↔
      0 ≤ toSigned32 (read32 s1 x86_offset_orig_eax) ∧
      0 < toSigned32 (read32 s2 x86_offset_orig_eax) ∧
      read32 s1 x86_offset_orig_eax ≠ read32 s2 x86_offset_orig_eax) ∧
    ("orig_rax" ∈ (compare_registers_arch .X64 s1 s2).1 ↔
      0 ≤ toSigned64 (read64 s1 x64_offset_orig_rax) ∧
      0 < toSigned64 (read64 s2 x64_offset_orig_rax) ∧
      read64 s1 x64_offset_orig_rax ≠ read64 s2 x64_offset_orig_rax) := by
  have hx86 : ∀ p ∈ get_regs_info SupportedArch.X86, p.2.name = "orig_eax" →
      p.2.comparison_mask = 0 := by decide
  have hx64 : ∀ p ∈ get_regs_info SupportedArch.X64, p.2.name = "orig_rax" →
      p.2.comparison_mask = 0 := by decide
  constructor
  · rw [compare_registers_arch_fst .X86 s1 s2, List.mem_append]
    have hnot := orig_name_not_walk_reported s1 s2 "orig_eax" _ hx86
    unfold compare_orig_check
    dsimp only
    constructor
    · rintro (h | h)
      · split at h
        case isTrue hc =>
          split at h
          case isTrue hne => exact ⟨hc.1, hc.2, hne⟩
          case isFalse hne => simp at h
        case isFalse hc => simp at h
      · exact absurd h hnot
    · rintro ⟨h1, h2, hne⟩
      left
      rw [if_pos ⟨h1, h2⟩, if_pos hne]
      simp
  · rw [compare_registers_arch_fst .X64 s1 s2, List.mem_append]
    have hnot := orig_name_not_walk_reported s1 s2 "orig_rax" _ hx64
    unfold compare_orig_check
    dsimp only
    constructor
    · rintro (h | h)
      · split at h
        case isTrue hc =>
          split at h
          case isTrue hne => exact ⟨hc.1, hc.2, hne⟩
          case isFalse hne => simp at h
        case isFalse hc => simp at h
      · exact absurd h hnot
    · rintro ⟨h1, h2, hne⟩
      left
      rw [if_pos ⟨h1, h2⟩, if_pos hne]
      simp

/-- C1 counterexample: two x86 register files whose original-syscall values
are `5` and `0` — both non-negative and unequal, so the claim demands a
mismatch report — yet the comparator reports nothing and returns a match. -/
theorem compare_orig_counterexample :
    read32 c1_store1 x86_offset_orig_eax = 5 ∧
    read32 c1_store2 x86_offset_orig_eax = 0 ∧
    toSigned32 (read32 c1_store1 x86_offset_orig_eax) ≥ 0 ∧
    toSigned32 (read32 c1_store2 x86_offset_orig_eax) ≥ 0 ∧
    compare_registers_arch .X86 c1_store1 c1_store2 = ([], true) := by
  exact ⟨rfl, rfl, by decide, by decide, by decide⟩

/-- C5 counterexample: the x86 catalogue's `eflags` entry has comparison mask
`0`, which is neither the full width of the 4-byte register nor one of the
claim's stated overrides (`eflags` is not a segment selector and not the
original-syscall pseudo-register). -/
theorem catalogue_mask_counterexample :
    (9, RegisterValue.new_with_mask "eflags" 56 4 0) ∈ x86regs ∧
    (RegisterValue.new_with_mask "eflags" 56 4 0).comparison_mask = 0 ∧
    RegisterValue.mask_for_nbytes 4 ≠ 0 := by
  decide

/-- C5 (amended): in the x86 catalogue every mask is the full register width
except that `xfs`/`xgs` mask out the two request-privilege-level bits (and,
the selector being 16-bit, the upper half of the 32-bit field) and
`eflags`, `xcs`, `xss`, `xds`, `xes`, `orig_eax` have mask `0`; in the x64
catalogue every mask is the full width of the entry's (post-override) size
except that `rsp`, `eflags`, `cs`, `ss`, `ds`, `es`, `orig_rax` have mask
`0` — in particular `fs`/`gs` there carry the full 32-bit mask, not an
RPL-stripped one. -/
theorem catalogue_masks :
    (∀ p ∈ x86regs, p.2.comparison_mask =
      if p.2.name = "xfs" ∨ p.2.name = "xgs" then 0xfffc
      else if p.2.name = "eflags" ∨ p.2.name = "xcs" ∨ p.2.name = "xss" ∨
        p.2.name = "xds" ∨ p.2.name = "xes" ∨ p.2.name = "orig_eax" then 0
      else RegisterValue.mask_for_nbytes p.2.nbytes) ∧
    (∀ p ∈ x64regs, p.2.comparison_mask =
      if p.2.name = "rsp" ∨ p.2.name = "eflags" ∨ p.2.name = "cs" ∨
        p.2.name = "ss" ∨ p.2.name = "ds" ∨ p.2.name = "es" ∨
        p.2.name = "orig_rax" then 0
      else RegisterValue.mask_for_nbytes p.2.nbytes) := by
  constructor <;> decide

/-- C6: every descriptor of both catalogues has size 0, 4 or 8 and a
comparison mask confined to the register's bit-width; both catalogues
rebuild successfully through the assertion-checked constructors; and a
constructor call whose mask has bits outside the width fails its
construction-time assertion. -/
theorem catalogue_descriptor_invariants :
    (∀ p ∈ x86regs ++ x64regs,
      (p.2.nbytes = 0 ∨ p.2.nbytes = 4 ∨ p.2.nbytes = 8) ∧
      p.2.comparison_mask &&& not64 (RegisterValue.mask_for_nbytes p.2.nbytes) = 0) ∧
    x86regsChecked = some x86regs ∧ x64regsChecked = some x64regs ∧
    (∀ (name : String) (offset nbytes m : Nat),
      m &&& not64 (RegisterValue.mask_for_nbytes nbytes) ≠ 0 →
      RegisterValue.new_with_mask_checked name offset nbytes m = none) := by
  refine ⟨by decide, by decide, by decide, ?_⟩
  intro name offset n m h
  have hok : RegisterValue.mask_ok n m = false := by
    unfold RegisterValue.mask_ok
    simpa using h
  simp [RegisterValue.new_with_mask_checked, hok]

/-- C6 witness: a concrete violating mask (bit 32 set on a 4-byte register)
is rejected by the checked constructor. -/
theorem catalogue_descriptor_invariants_witness :
    ((4294967296 : Nat) &&& not64 (RegisterValue.mask_for_nbytes 4) ≠ 0) ∧
    RegisterValue.new_with_mask_checked "bogus" 0 4 4294967296 = none :=
  ⟨by decide,
    catalogue_descriptor_invariants.2.2.2 "bogus" 0 4 4294967296 (by decide)⟩

lemma write_bytes_eq (value : List Nat) : ∀ (s : Store) (offset i : Nat),
    write_bytes s offset value i =
      if offset ≤ i ∧ i < offset + value.length then value.getD (i - offset) 0
      else s i := by
  induction value with
  | nil =>
    intro s offset i
    have h : ¬ (offset ≤ i ∧ i < offset + ([] : List Nat).length) := by
      simp only [List.length_nil, Nat.add_zero]
      omega
    rw [write_bytes, if_neg h]
  | cons b rest ih =>
    intro s offset i
    rw [write_bytes, ih]
    simp only [List.length_cons]
    rcases Nat.lt_trichotomy i offset with h | h | h
    · have hc1 : ¬ (offset + 1 ≤ i ∧ i < offset + 1 + rest.length) := by omega
      have hc2 : ¬ (offset ≤ i ∧ i < offset + (rest.length + 1)) := by omega
      rw [if_neg hc1, if_neg hc2]
      show (if i = offset then b else s i) = s i
      rw [if_neg (by omega)]
    · subst h
      have hc1 : ¬ (i + 1 ≤ i ∧ i < i + 1 + rest.length) := by omega
      have hc2 : i ≤ i ∧ i < i + (rest.length + 1) := by omega
      rw [if_neg hc1, if_pos hc2]
      show (if i = i then b else s i) = (b :: rest).getD (i - i) 0
      rw [if_pos rfl, Nat.sub_self]
      rfl
    · by_cases h2 : i < offset + 1 + rest.length
      · have hc1 : offset + 1 ≤ i ∧ i < offset + 1 + rest.length := by omega
        have hc2 : offset ≤ i ∧ i < offset + (rest.length + 1) := by omega
        rw [if_pos hc1, if_pos hc2]
        have h3 : i - offset = (i - (offset + 1)) + 1 := by omega
        rw [h3]
        rfl
      · have hc1 : ¬ (offset + 1 ≤ i ∧ i < offset + 1 + rest.length) := by omega
        have hc2 : ¬ (offset ≤ i ∧ i < offset + (rest.length + 1)) := by omega
        rw [if_neg hc1, if_neg hc2]
        show (if i = offset then b else s i) = s i
        rw [if_neg (by omega)]

/-- C9: for a register whose descriptor is found and has nonzero size,
`write_register_arch` copies exactly the caller's `value.length` bytes —
not the descriptor's declared size — into storage at the descriptor's
offset, and every byte outside `[offset, offset + value.length)` is
unchanged; so a longer slice spills into adjacent registers and a shorter
slice leaves the register's remaining high-order bytes untouched. -/
theorem write_register_frame (arch : SupportedArch) (s : Store) (value : List Nat)
    (regno k : Nat) (rv : RegisterValue)
    (hfind : (get_regs_info arch).find? (fun p => p.1 == regno) = some (k, rv))
    (hnz : rv.nbytes ≠ 0) :
    ∀ i, write_register_arch arch s value regno i =
      if rv.offset ≤ i ∧ i < rv.offset + value.length then value.getD (i - rv.offset) 0
      else s i := by
  intro i
  unfold write_register_arch
  rw [hfind]
  dsimp only
  rw [if_neg hnz]
  exact write_bytes_eq value s rv.offset i

/-- C9 witness: writing a 2-byte slice to the 4-byte `eax` register of an
all-`7` file sets bytes 24–25 and leaves byte 26 (eax's third byte) at `7`. -/
theorem write_register_frame_witness :
    ((get_regs_info .X86).find? (fun p => p.1 == 0) =
      some (0, RegisterValue.new "eax" 24 4)) ∧
    (RegisterValue.new "eax" 24 4).nbytes ≠ 0 ∧
    write_register_arch .X86 (fun _ => 7) [1, 2] 0 24 = 1 ∧
    write_register_arch .X86 (fun _ => 7) [1, 2] 0 25 = 2 ∧
    write_register_arch .X86 (fun _ => 7) [1, 2] 0 26 = 7 := by
  have h := write_register_frame .X86 (fun _ => 7) [1, 2] 0 0
    (RegisterValue.new "eax" 24 4) (by decide) (by decide)
  exact ⟨by decide, by decide, (h 24).trans (by decide), (h 25).trans (by decide),
    (h 26).trans (by decide)⟩

lemma trace_step_skip (s : Store) (style : TraceStyle) (acc : String × Bool)
    (p : Nat × RegisterValue) (h : p.2.nbytes = 0) :
    trace_step s style acc p = acc := by
  unfold trace_step
  rw [if_pos h]

lemma trace_step_emit (s : Store) (acc : String × Bool) (p : Nat × RegisterValue)
    (hs : p.2.nbytes = 4 ∨ p.2.nbytes = 8) (hn : 0 < p.2.name.length) :
    trace_step s TraceStyle.Annotated acc p =
      (acc.1 ++ ((if acc.2 then "" else " ") ++ annotated_piece s p), false) := by
  rcases hs with h | h <;>
    simp only [trace_step, h, write_single_register, annotated_piece, reg_val,
      if_neg (by omega : ¬ (4 : Nat) = 0), if_neg (by omega : ¬ (8 : Nat) = 0),
      if_pos hn, String.append_assoc]

lemma trace_foldl_eval (s : Store) (l : List (Nat × RegisterValue))
    (hl : ∀ p ∈ l, (p.2.nbytes = 0 ∨ p.2.nbytes = 4 ∨ p.2.nbytes = 8) ∧
      (¬ p.2.nbytes = 0 → 0 < p.2.name.length)) :
    ∀ a : String,
      (l.foldl (trace_step s TraceStyle.Annotated) (a, true)).1 =
        a ++ joinSpace (trace_pieces s l) ∧
      (l.foldl (trace_step s TraceStyle.Annotated) (a, false)).1 =
        a ++ joinSpaceTail (trace_pieces s l) := by
  induction l with
  | nil =>
    intro a
    constructor <;> simp [trace_pieces, joinSpace, joinSpaceTail]
  | cons p l ih =>
    have hp := hl p (List.mem_cons_self p l)
    have hl' : ∀ q ∈ l, (q.2.nbytes = 0 ∨ q.2.nbytes = 4 ∨ q.2.nbytes = 8) ∧
        (¬ q.2.nbytes = 0 → 0 < q.2.name.length) :=
      fun q hq => hl q (List.mem_cons_of_mem p hq)
    intro a
    rcases hp.1 with h0 | h48
    · have hpieces : trace_pieces s (p :: l) = trace_pieces s l := by
        simp [trace_pieces, List.filter_cons, h0]
      rw [List.foldl_cons, List.foldl_cons, trace_step_skip s _ _ p h0,
        trace_step_skip s _ _ p h0, hpieces]
      exact ih hl' a
    · have hn : 0 < p.2.name.length := hp.2 (by omega)
      have hpieces : trace_pieces s (p :: l) =
          annotated_piece s p :: trace_pieces s l := by
        simp [trace_pieces, List.filter_cons, show ¬ p.2.nbytes = 0 by omega]
      rw [List.foldl_cons, List.foldl_cons,
        trace_step_emit s (a, true) p h48 hn, trace_step_emit s (a, false) p h48 hn,
        hpieces]
      constructor
      · rw [(ih hl' _).2]
        show a ++ ("" ++ annotated_piece s p) ++ joinSpaceTail (trace_pieces s l) =
          a ++ (annotated_piece s p ++ joinSpaceTail (trace_pieces s l))
        rw [String.empty_append, String.append_assoc]
      · rw [(ih hl' _).2]
        show a ++ (" " ++ annotated_piece s p) ++ joinSpaceTail (trace_pieces s l) =
          a ++ joinSpaceTail (annotated_piece s p :: trace_pieces s l)
        rw [String.append_assoc]
        show _ = a ++ (" " ++ annotated_piece s p ++ joinSpaceTail (trace_pieces s l))
        rw [String.append_assoc]

/-- C7 (amended): the compact serialization emits one `name:hexvalue` chunk —
so with a register-name annotation, the annotated style — per nonzero-size
catalogue entry, space-separated, in catalogue order. -/
theorem compact_serialization_annotated (arch : SupportedArch) (s : Store) :
    write_register_file_compact arch s =
      joinSpace (trace_pieces s (get_regs_info arch)) := by
  have hl : ∀ p ∈ get_regs_info arch,
      (p.2.nbytes = 0 ∨ p.2.nbytes = 4 ∨ p.2.nbytes = 8) ∧
      (¬ p.2.nbytes = 0 → 0 < p.2.name.length) := by
    cases arch <;> decide
  have h := (trace_foldl_eval s (get_regs_info arch) hl "").1
  unfold write_register_file_compact write_register_file_for_trace_arch
  rw [h, String.empty_append]

/-- C7 counterexample: on an all-zero x86 register file the compact
serialization annotates every value with its register name, so it differs
from the spec's positional no-name form. -/
theorem compact_serialization_counterexample :
    write_register_file_compact .X86 zero_store =
      "eax:0 ecx:0 edx:0 ebx:0 esp:0 ebp:0 esi:0 edi:0 eip:0 eflags:0 xcs:0 xss:0 xds:0 xes:0 xfs:0 xgs:0 orig_eax:0" ∧
    compact_positional_spec .X86 zero_store = "0 0 0 0 0 0 0 0 0 0 0 0 0 0 0 0 0" ∧
    write_register_file_compact .X86 zero_store ≠
      compact_positional_spec .X86 zero_store := by
  refine ⟨by decide, by decide, by decide⟩

/-- C3: widening an x86-arch register file through `get_ptrace` zero-extends
every converted field (general-purpose registers, stack pointer, instruction
pointer, flags, the original-syscall pseudo-register, segment selectors) and
sign-extends exactly the accumulator `eax` into `rax`. -/
theorem get_ptrace_widen_extends (x : X86UserRegs) (h : x.wf) :
    (get_ptrace (.x86 x)).rax =
      (if x.eax < 2 ^ 31 then x.eax else x.eax + (U64 - U32)) ∧
    (get_ptrace (.x86 x)).rax % U32 = x.eax ∧
    (2 ^ 31 ≤ x.eax → U64 - U32 ≤ (get_ptrace (.x86 x)).rax) ∧
    ((get_ptrace (.x86 x)).rbx = x.ebx ∧ (get_ptrace (.x86 x)).rbx < U32) ∧
    ((get_ptrace (.x86 x)).rcx = x.ecx ∧ (get_ptrace (.x86 x)).rcx < U32) ∧
    ((get_ptrace (.x86 x)).rdx = x.edx ∧ (get_ptrace (.x86 x)).rdx < U32) ∧
    ((get_ptrace (.x86 x)).rsi = x.esi ∧ (get_ptrace (.x86 x)).rsi < U32) ∧
    ((get_ptrace (.x86 x)).rdi = x.edi ∧ (get_ptrace (.x86 x)).rdi < U32) ∧
    ((get_ptrace (.x86 x)).rsp = x.esp ∧ (get_ptrace (.x86 x)).rsp < U32) ∧
    ((get_ptrace (.x86 x)).rbp = x.ebp ∧ (get_ptrace (.x86 x)).rbp < U32) ∧
    ((get_ptrace (.x86 x)).rip = x.eip ∧ (get_ptrace (.x86 x)).rip < U32) ∧
    ((get_ptrace (.x86 x)).orig_rax = x.orig_eax ∧
      (get_ptrace (.x86 x)).orig_rax < U32) ∧
    ((get_ptrace (.x86 x)).eflags = x.eflags ∧ (get_ptrace (.x86 x)).eflags < U32) ∧
    ((get_ptrace (.x86 x)).cs = x.xcs ∧ (get_ptrace (.x86 x)).cs < U32) ∧
    ((get_ptrace (.x86 x)).ds = x.xds ∧ (get_ptrace (.x86 x)).ds < U32) ∧
    ((get_ptrace (.x86 x)).es = x.xes ∧ (get_ptrace (.x86 x)).es < U32) ∧
    ((get_ptrace (.x86 x)).fs = x.xfs ∧ (get_ptrace (.x86 x)).fs < U32) ∧
    ((get_ptrace (.x86 x)).gs = x.xgs ∧ (get_ptrace (.x86 x)).gs < U32) ∧
    ((get_ptrace (.x86 x)).ss = x.xss ∧ (get_ptrace (.x86 x)).ss < U32) := by
  obtain ⟨h1, h2, h3, h4, h5, h6, h7, h8, h9, h10, h11, h12, h13, h14, h15, h16, h17⟩ := h
  unfold get_ptrace convert_x86_widen from_x86_narrow from_x86_narrow_signed
  refine ⟨rfl, ?_, ?_, ⟨rfl, h1⟩, ⟨rfl, h2⟩, ⟨rfl, h3⟩, ⟨rfl, h4⟩, ⟨rfl, h5⟩,
    ⟨rfl, h16⟩, ⟨rfl, h6⟩, ⟨rfl, h13⟩, ⟨rfl, h12⟩, ⟨rfl, h15⟩, ⟨rfl, h14⟩,
    ⟨rfl, h8⟩, ⟨rfl, h9⟩, ⟨rfl, h10⟩, ⟨rfl, h11⟩, ⟨rfl, h17⟩⟩
  · show (if x.eax < 2 ^ 31 then x.eax else x.eax + (U64 - U32)) % U32 = x.eax
    unfold U64 U32 at *
    split <;> omega
  · intro hge
    show U64 - U32 ≤ (if x.eax < 2 ^ 31 then x.eax else x.eax + (U64 - U32))
    unfold U64 U32 at *
    split <;> omega

/-- C3 witness: the sample file is well-formed and its widened accumulator
keeps its low 32 bits. -/
theorem get_ptrace_widen_extends_witness :
    c3_sample.wf ∧ (get_ptrace (.x86 c3_sample)).rax % U32 = c3_sample.eax :=
  ⟨by decide, (get_ptrace_widen_extends c3_sample (by decide)).2.1⟩

lemma to_x86_narrow_from_narrow (v : Nat) (h : v < U32) :
    to_x86_narrow (from_x86_narrow v) = v := by
  unfold to_x86_narrow from_x86_narrow U32 at *
  omega

lemma to_x86_narrow_from_narrow_signed (v : Nat) (h : v < U32) :
    to_x86_narrow (from_x86_narrow_signed v) = v := by
  unfold to_x86_narrow from_x86_narrow_signed U64 U32 at *
  split <;> omega

/-- C4: narrowing the widened image of any well-formed 32-bit register struct
(truncating each 64-bit field to its low 32 bits with `to_x86_narrow`)
reproduces every enumerated field of the original exactly — including the
accumulator, whose 32 stored bits are precisely its low 32 bits. -/
theorem narrow_widen_roundtrip (x0 x : X86UserRegs) (h : x.wf) :
    convert_x86_narrow x0
      (convert_x86_widen X64UserRegs.default x from_x86_narrow from_x86_narrow_signed)
      to_x86_narrow to_x86_narrow = x := by
  obtain ⟨h1, h2, h3, h4, h5, h6, h7, h8, h9, h10, h11, h12, h13, h14, h15, h16, h17⟩ := h
  cases x
  simp only [convert_x86_narrow, convert_x86_widen, X86UserRegs.mk.injEq]
  refine ⟨to_x86_narrow_from_narrow _ h1, to_x86_narrow_from_narrow _ h2,
    to_x86_narrow_from_narrow _ h3, to_x86_narrow_from_narrow _ h4,
    to_x86_narrow_from_narrow _ h5, to_x86_narrow_from_narrow _ h6,
    to_x86_narrow_from_narrow_signed _ h7, to_x86_narrow_from_narrow _ h8,
    to_x86_narrow_from_narrow _ h9, to_x86_narrow_from_narrow _ h10,
    to_x86_narrow_from_narrow _ h11, to_x86_narrow_from_narrow _ h12,
    to_x86_narrow_from_narrow _ h13, to_x86_narrow_from_narrow _ h14,
    to_x86_narrow_from_narrow _ h15, to_x86_narrow_from_narrow _ h16,
    to_x86_narrow_from_narrow _ h17⟩

/-- C4 witness: the round trip is the identity on the concrete sample file
(whatever 32-bit struct the narrowing started from). -/
theorem narrow_widen_roundtrip_witness :
    c3_sample.wf ∧
    convert_x86_narrow ⟨0, 0, 0, 0, 0, 0, 0, 0, 0, 0, 0, 0, 0, 0, 0, 0, 0⟩
      (convert_x86_widen X64UserRegs.default c3_sample from_x86_narrow
        from_x86_narrow_signed) to_x86_narrow to_x86_narrow = c3_sample :=
  ⟨by decide,
    narrow_widen_roundtrip ⟨0, 0, 0, 0, 0, 0, 0, 0, 0, 0, 0, 0, 0, 0, 0, 0, 0⟩
      c3_sample (by decide)⟩

/-- C8: on both architectures `syscall_failed` is true exactly when the
signed syscall result `r` satisfies `-4096 < r < 0`; concretely, with the
bit patterns of `-4096`, `-1`, `0` and `-4097` stored in the accumulator,
it returns `false`, `true`, `false`, `false` respectively. -/
theorem syscall_failed_iff :
    (∀ r : Registers, r.syscall_failed = true ↔
      (-4096 < r.syscall_result_signed ∧ r.syscall_result_signed < 0)) ∧
    ((Registers.x86 (x86_with_eax (U32 - 4096))).syscall_result_signed = -4096 ∧
      (Registers.x86 (x86_with_eax (U32 - 4096))).syscall_failed = false) ∧
    ((Registers.x86 (x86_with_eax (U32 - 1))).syscall_result_signed = -1 ∧
      (Registers.x86 (x86_with_eax (U32 - 1))).syscall_failed = true) ∧
    ((Registers.x86 (x86_with_eax 0)).syscall_result_signed = 0 ∧
      (Registers.x86 (x86_with_eax 0)).syscall_failed = false) ∧
    ((Registers.x86 (x86_with_eax (U32 - 4097))).syscall_result_signed = -4097 ∧
      (Registers.x86 (x86_with_eax (U32 - 4097))).syscall_failed = false) ∧
    ((Registers.x64 (x64_with_rax (U64 - 4096))).syscall_result_signed = -4096 ∧
      (Registers.x64 (x64_with_rax (U64 - 4096))).syscall_failed = false) ∧
    ((Registers.x64 (x64_with_rax (U64 - 1))).syscall_result_signed = -1 ∧
      (Registers.x64 (x64_with_rax (U64 - 1))).syscall_failed = true) ∧
    ((Registers.x64 (x64_with_rax 0)).syscall_result_signed = 0 ∧
      (Registers.x64 (x64_with_rax 0)).syscall_failed = false) ∧
    ((Registers.x64 (x64_with_rax (U64 - 4097))).syscall_result_signed = -4097 ∧
      (Registers.x64 (x64_with_rax (U64 - 4097))).syscall_failed = false) := by
  refine ⟨?_, by decide, by decide, by decide, by decide, by decide, by decide,
    by decide, by decide⟩
  intro r
  unfold Registers.syscall_failed
  exact decide_eq_true_iff

lemma i32_as_usize_high (v : Nat) (hlt : v < U32) (hhi : 2 ^ 31 ≤ v) :
    i32_as_usize v >>> 32 = U32 - 1 := by
  unfold i32_as_usize U64 U32 at *
  rw [if_neg (by omega), Nat.shiftRight_eq_div_pow]
  omega

/-- C10: on an x86-arch register file, each accessor dispatching through the
generic register-read macro — flags, instruction pointer, stack pointer,
syscall result, and the six syscall arguments — sign-extends the stored
32-bit field: whenever the stored pattern has bit 31 set, the accessor's
upper 32 bits are all ones. -/
theorem x86_accessors_sign_extend (x : X86UserRegs) (h : x.wf) :
    (2 ^ 31 ≤ x.eflags → Registers.flags (.x86 x) >>> 32 = U32 - 1) ∧
    (2 ^ 31 ≤ x.eip → Registers.ip (.x86 x) >>> 32 = U32 - 1) ∧
    (2 ^ 31 ≤ x.esp → Registers.sp (.x86 x) >>> 32 = U32 - 1) ∧
    (2 ^ 31 ≤ x.eax → Registers.syscall_result (.x86 x) >>> 32 = U32 - 1) ∧
    (2 ^ 31 ≤ x.ebx → Registers.arg1 (.x86 x) >>> 32 = U32 - 1) ∧
    (2 ^ 31 ≤ x.ecx → Registers.arg2 (.x86 x) >>> 32 = U32 - 1) ∧
    (2 ^ 31 ≤ x.edx → Registers.arg3 (.x86 x) >>> 32 = U32 - 1) ∧
    (2 ^ 31 ≤ x.esi → Registers.arg4 (.x86 x) >>> 32 = U32 - 1) ∧
    (2 ^ 31 ≤ x.edi → Registers.arg5 (.x86 x) >>> 32 = U32 - 1) ∧
    (2 ^ 31 ≤ x.ebp → Registers.arg6 (.x86 x) >>> 32 = U32 - 1) := by
  obtain ⟨h1, h2, h3, h4, h5, h6, h7, h8, h9, h10, h11, h12, h13, h14, h15, h16, h17⟩ := h
  exact ⟨fun hh => i32_as_usize_high x.eflags h15 hh,
    fun hh => i32_as_usize_high x.eip h13 hh,
    fun hh => i32_as_usize_high x.esp h16 hh,
    fun hh => i32_as_usize_high x.eax h7 hh,
    fun hh => i32_as_usize_high x.ebx h1 hh,
    fun hh => i32_as_usize_high x.ecx h2 hh,
    fun hh => i32_as_usize_high x.edx h3 hh,
    fun hh => i32_as_usize_high x.esi h4 hh,
    fun hh => i32_as_usize_high x.edi h5 hh,
    fun hh => i32_as_usize_high x.ebp h6 hh⟩

/-- C10 witness: on the sample file the flags accessor's upper 32 bits are
all ones. -/
theorem x86_accessors_sign_extend_witness :
    c10_sample.wf ∧ 2 ^ 31 ≤ c10_sample.eflags ∧
    Registers.flags (.x86 c10_sample) >>> 32 = U32 - 1 :=
  ⟨by decide, by decide,
    (x86_accessors_sign_extend c10_sample (by decide)).1 (by decide)⟩

/-- C5 witness: the mask table instantiated at the x86 `xfs` entry, whose
mask is the RPL-stripped `0xfffc`. -/
theorem catalogue_masks_witness :
    (14, RegisterValue.new_with_mask "xfs" 36 4 0xfffc) ∈ x86regs ∧
    (14, RegisterValue.new_with_mask "xfs" 36 4 0xfffc).2.comparison_mask =
      (if (14, RegisterValue.new_with_mask "xfs" 36 4 0xfffc).2.name = "xfs" ∨
          (14, RegisterValue.new_with_mask "xfs" 36 4 0xfffc).2.name = "xgs" then 0xfffc
       else if (14, RegisterValue.new_with_mask "xfs" 36 4 0xfffc).2.name = "eflags" ∨
          (14, RegisterValue.new_with_mask "xfs" 36 4 0xfffc).2.name = "xcs" ∨
          (14, RegisterValue.new_with_mask "xfs" 36 4 0xfffc).2.name = "xss" ∨
          (14, RegisterValue.new_with_mask "xfs" 36 4 0xfffc).2.name = "xds" ∨
          (14, RegisterValue.new_with_mask "xfs" 36 4 0xfffc).2.name = "xes" ∨
          (14, RegisterValue.new_with_mask "xfs" 36 4 0xfffc).2.name = "orig_eax" then 0
       else RegisterValue.mask_for_nbytes
        (14, RegisterValue.new_with_mask "xfs" 36 4 0xfffc).2.nbytes) :=
  ⟨by decide,
    catalogue_masks.1 (14, RegisterValue.new_with_mask "xfs" 36 4 0xfffc) (by decide)⟩

